import Mathlib

/-!
Verification of the nova-py motion-execution pipeline (`nova/core/motion_group.py`)
against its natural-language specification.

The Python source is shallowly embedded: the remote planning/execution service
is represented by an `Env` record holding the responses it would return, the
asynchronous generators become pure functions from those responses to the
sequence of yielded motion states, the outbound requests, and a final outcome,
and the network activity is recorded as an explicit trace of `NetworkCall`s.
Floats carry no arithmetic in the modelled code paths, so they are embedded
as rationals.
-/

namespace Nova

/-- Modelled from the spec: `MotionState` (nova/types/state.py, not under src/):
a snapshot of robot state during execution, indexed by a path-parameter
location; the unit of progress reported to the caller. -/
structure MotionState where
  location : ℚ
deriving DecidableEq, Repr

/-- Modelled from the spec: a motion primitive (nova/types/action.py, not under
src/): a single point-to-point or joint-space move authored by the caller. -/
structure MotionCmd where
  kind : String
  target : List ℚ
deriving DecidableEq, Repr

/-- Modelled from the spec: an I/O side-effect attached to the action list
(nova/types/action.py, not under src/), tagged with a path parameter
(scalar location along the eventual trajectory, 0 = start). -/
structure WriteAction where
  device : String
  value : Bool
  path_parameter : ℚ
deriving DecidableEq, Repr

/-- Modelled from the spec: `Action` (nova/types/action.py, not under src/):
either a motion primitive or an I/O side-effect tagged with a path
parameter. -/
inductive Action where
  | motion (cmd : MotionCmd)
  | write (w : WriteAction)
deriving DecidableEq, Repr

/-- Modelled from the spec: `CombinedActions` (nova/types/action.py, not under
src/): the ordered list of Actions, normalized on demand into motion commands
and (I/O-effect, path-parameter) pairs. -/
structure CombinedActions where
  items : List Action
deriving DecidableEq, Repr

/-- Modelled from the spec: the motion commands extracted from the action list,
in input order. -/
def CombinedActions.motions (ca : CombinedActions) : List MotionCmd :=
  ca.items.filterMap fun a =>
    match a with
    | .motion c => some c
    | .write _ => none

/-- Modelled from the spec: the I/O effects extracted from the action list, in
input order, each retaining its source path parameter unchanged. -/
def CombinedActions.actions (ca : CombinedActions) : List WriteAction :=
  ca.items.filterMap fun a =>
    match a with
    | .motion _ => none
    | .write w => some w

/-- Modelled from the spec: `wb.models.SetIO` — one entry of the I/O list sent
in the StartMovement message: the dumped I/O action plus a location. -/
structure SetIoEntry where
  io : WriteAction
  location : ℚ
deriving DecidableEq, Repr

/-- Modelled from the spec: the Standstill reason codes of the execution
service; `reasonMotionEnded` embeds `StandstillReason.REASON_MOTION_ENDED`
("motion ended normally"), the other constructors embed the abnormal
reasons. -/
inductive StandstillReason where
  | reasonMotionEnded
  | reasonUserStop
  | reasonInternalError
deriving DecidableEq, Repr

/-- Modelled from the spec: one inbound message of the execute-trajectory
stream: the acknowledgment of initialization, a progress update, or a
Standstill event carrying a reason code. -/
inductive ExecuteTrajectoryResponse where
  | initializeMovementResponse (ok : Bool)
  | movement (state : MotionState)
  | standstill (reason : StandstillReason)
deriving DecidableEq, Repr

/-- Modelled from the spec: one outbound message of the execute-trajectory
stream (`wb.models.ExecuteTrajectoryRequest`). -/
inductive ExecuteTrajectoryRequest where
  | initializeMovement (trajectory : String) (initial_location : ℚ)
  | startMovement (set_ios : List SetIoEntry)
      (start_on_io : Option WriteAction) (pause_on_io : Option WriteAction)
deriving DecidableEq, Repr

/-- Modelled from the spec: `wb.models.JointTrajectory`, the success payload of
planning: time-parameterized joint positions plus path-parameter locations. -/
structure JointTrajectory where
  times : List ℚ
  joint_positions : List (List ℚ)
  locations : List ℚ
deriving DecidableEq, Repr

/-- Modelled from the spec: `wb.models.PlannedMotion`, the body of the load
request registered with the execution subsystem. -/
structure PlannedMotion where
  motion_group : String
  times : List ℚ
  joint_positions : List (List ℚ)
  locations : List ℚ
  tcp : String
deriving DecidableEq, Repr

/-- Modelled from the spec: `wb.models.LimitsOverride`, optional joint-velocity
limits attached to a move request. -/
structure LimitsOverride where
  joint_velocity_limits : Option (List ℚ)
deriving DecidableEq, Repr

/-- `wb.models.PlanTrajectoryRequest` as built by `MotionGroup.plan`
(motion_group.py lines 124-130); the optimizer setup is opaque here. -/
structure PlanTrajectoryRequest where
  robot_setup : String
  motion_group : String
  start_joint_position : List ℚ
  motion_commands : List MotionCmd
  tcp : String
deriving DecidableEq, Repr

/-- The two variants of the remote planner's response (spec section 6). -/
inductive PlanOutcome where
  | success (trajectory : JointTrajectory)
  | failure (diag : String)
deriving DecidableEq, Repr

/-- One recorded remote call of the pipeline, with the arguments the code
actually passes. -/
inductive NetworkCall where
  | getCurrentMotionGroupState (tcp : String)
  | getMotionGroupSpecification
  | getOptimizerConfiguration (tcp : String)
  | planTrajectory (req : PlanTrajectoryRequest)
  | loadPlannedMotion (pm : PlannedMotion)
  | streamMoveToTrajectoryViaJointPtp (motion : String) (location : ℚ)
      (limits : Option LimitsOverride)
  | executeTrajectory
  | stopExecution (motion : Option String)
deriving DecidableEq, Repr

/-- The responses the remote service would give during one run: the embedding
of the service side of every awaited call. -/
structure Env where
  numberOfJoints : Nat
  currentJoints : List ℚ
  optimizerSetup : String
  planOutcome : PlanOutcome
  loadedMotion : String
  positioningStates : List MotionState
  executeResponses : List ExecuteTrajectoryResponse
deriving DecidableEq, Repr

/-- The errors the embedded pipeline can surface to the caller. -/
inductive SessionError where
  | emptyActionList
  | planningFailed (diag : String)
  | streamInitFailed
deriving DecidableEq, Repr

/-- `MAX_JOINT_VELOCITY_PREPARE_MOVE = 0.2` (motion_group.py line 12). -/
def MAX_JOINT_VELOCITY_PREPARE_MOVE : ℚ := 1 / 5

/-- `START_LOCATION_OF_MOTION = 0.0` (motion_group.py line 13). -/
def START_LOCATION_OF_MOTION : ℚ := 0

/-- The SetIO list built inside `movement_controller` (motion_group.py lines
213-219): one entry per extracted I/O action, `location` taken from the
action's `path_parameter`. -/
def set_io_list (actions : List Action) : List SetIoEntry :=
  (CombinedActions.mk actions).actions.map fun a => { io := a, location := a.path_parameter }

/-- How the response loop of `movement_controller` (motion_group.py lines
225-237) ends: `completed` embeds the `return` taken on a Standstill whose
reason is `REASON_MOTION_ENDED`; `streamExhausted` embeds the `async for`
loop running out of responses; `initFailed` embeds `anext` failing on the
initialization response (no loop runs at all). -/
inductive ControllerOutcome where
  | completed
  | streamExhausted
  | initFailed
deriving DecidableEq, Repr

/-- The termination behavior of the response loop (motion_group.py lines
225-237): each response is appended to `responses`; only a Standstill with
reason `REASON_MOTION_ENDED` triggers the `return`, every other response lets
the loop continue; an exhausted stream ends the loop without error. -/
def consumeOutcome : List ExecuteTrajectoryResponse → ControllerOutcome
  | [] => .streamExhausted
  | r :: rs =>
    match r with
    | .standstill reason =>
        if reason = .reasonMotionEnded then .completed else consumeOutcome rs
    | _ => consumeOutcome rs

/-- The responses appended to the local `responses` list by the loop
(motion_group.py lines 225-237): every response up to and including a
Standstill with reason `REASON_MOTION_ENDED`, or the whole stream when no
such Standstill arrives. -/
def consumedResponses : List ExecuteTrajectoryResponse → List ExecuteTrajectoryResponse
  | [] => []
  | r :: rs =>
    match r with
    | .standstill reason =>
        if reason = .reasonMotionEnded then [ .standstill reason ]
        else .standstill reason :: consumedResponses rs
    | other => other :: consumedResponses rs

/-- `movement_controller` (motion_group.py lines 204-237) as a function from
the inbound response stream to the outbound requests and the loop outcome:
it yields one Initialize message (trajectory handle, initial location 0),
awaits exactly one response, yields one StartMovement message carrying the
extracted I/O list (start/pause triggers `None`), then only consumes
responses. An empty stream means the single awaited initialization response
never arrives. -/
def movement_controller (trajectory : String) (actions : List Action)
    (response_stream : List ExecuteTrajectoryResponse) :
    List ExecuteTrajectoryRequest × ControllerOutcome :=
  match response_stream with
  | [] => ([.initializeMovement trajectory 0], .initFailed)
  | _initialize_movement_response :: rest =>
      ([.initializeMovement trajectory 0,
        .startMovement (set_io_list actions) none none],
       consumeOutcome rest)

/-- `MotionGroup.plan` (motion_group.py lines 103-143): rejects an empty
action list before any remote call, otherwise reads the current joints,
fetches the optimizer configuration, sends one planning request built from
the normalized motion commands, and classifies the response: the failure
variant raises `PlanTrajectoryFailed`, the success variant is returned.
Returns the result together with the trace of remote calls issued. -/
def plan (env : Env) (motion_group_id : String) (actions : List Action)
    (tcp : String) : Except SessionError JointTrajectory × List NetworkCall :=
  if actions.length = 0 then
    (.error .emptyActionList, [])
  else
    let request : PlanTrajectoryRequest :=
      { robot_setup := env.optimizerSetup
        motion_group := motion_group_id
        start_joint_position := env.currentJoints
        motion_commands := (CombinedActions.mk actions).motions
        tcp := tcp }
    let calls : List NetworkCall :=
      [.getCurrentMotionGroupState tcp, .getOptimizerConfiguration tcp,
       .planTrajectory request]
    match env.planOutcome with
    | .failure diag => (.error (.planningFailed diag), calls)
    | .success trajectory => (.ok trajectory, calls)

/-- The `wb.models.PlannedMotion` body built for the load request
(motion_group.py lines 180-186): the trajectory's times, positions and
locations, with the tool frame hard-coded to `"Flange"`. -/
def mkPlannedMotion (motion_group_id : String) (jt : JointTrajectory) :
    PlannedMotion :=
  { motion_group := motion_group_id
    times := jt.times
    joint_positions := jt.joint_positions
    locations := jt.locations
    tcp := "Flange" }

instance : DecidableEq (Except SessionError Unit) := fun a b =>
  match a, b with
  | .ok (), .ok () => isTrue rfl
  | .error e₁, .error e₂ =>
      if h : e₁ = e₂ then isTrue (by rw [h])
      else isFalse (by intro hh; cases hh; exact h rfl)
  | .ok _, .error _ => isFalse (by intro h; cases h)
  | .error _, .ok _ => isFalse (by intro h; cases h)

/-- What one full run of the pipeline produced: the MotionState values the
caller observed, the final result, the remote-call trace, and the
`_current_motion` field right after the planning step and at the end. -/
structure SessionOutput where
  yielded : List MotionState
  result : Except SessionError Unit
  calls : List NetworkCall
  limit_override_built : Option LimitsOverride
  current_motion_after_plan : Option String
  current_motion_final : Option String
deriving DecidableEq, Repr

/-- `MotionGroup._planned_motion_iter` together with its inner
`move_along_path` (motion_group.py lines 163-277): fetch the joint count,
plan (propagating failures before anything else runs), leave
`_current_motion` untouched (the assignment at line 263 is commented out),
load the planned trajectory under tool frame `"Flange"`, build the
`LimitsOverride` with `MAX_JOINT_VELOCITY_PREPARE_MOVE` per joint (lines
191-193) without passing it to the point-to-point move request (lines
196-198), yield every positioning state, run `movement_controller` over the
execute-trajectory stream (which yields nothing to the caller), and on
normal return set `_current_motion = None` (line 277). -/
def planned_motion_iter (env : Env) (motion_group_id : String)
    (current_motion : Option String) (actions : List Action) (tcp : String) :
    SessionOutput :=
  match plan env motion_group_id actions tcp with
  | (.error e, planCalls) =>
      { yielded := []
        result := .error e
        calls := NetworkCall.getMotionGroupSpecification :: planCalls
        limit_override_built := none
        current_motion_after_plan := current_motion
        current_motion_final := current_motion }
  | (.ok jt, planCalls) =>
      let joints_velocities :=
        List.replicate env.numberOfJoints MAX_JOINT_VELOCITY_PREPARE_MOVE
      let limit_override : LimitsOverride :=
        { joint_velocity_limits := some joints_velocities }
      let execCalls : List NetworkCall :=
        [.loadPlannedMotion (mkPlannedMotion motion_group_id jt),
         .streamMoveToTrajectoryViaJointPtp env.loadedMotion 0 none,
         .executeTrajectory]
      let outcome := (movement_controller env.loadedMotion actions env.executeResponses).2
      { yielded := env.positioningStates
        result := if outcome = .initFailed then .error .streamInitFailed else .ok ()
        calls := NetworkCall.getMotionGroupSpecification :: planCalls ++ execCalls
        limit_override_built := some limit_override
        current_motion_after_plan := current_motion
        current_motion_final :=
          if outcome = .initFailed then current_motion else none }

/-- `MotionGroup.stream_run` (motion_group.py lines 34-72): normalizes the
action argument to a list and forwards everything to
`_planned_motion_iter`. -/
def stream_run (env : Env) (motion_group_id : String)
    (current_motion : Option String) (actions : List Action) (tcp : String) :
    SessionOutput :=
  planned_motion_iter env motion_group_id current_motion actions tcp

/-- `MotionGroup.run` (motion_group.py lines 74-76): drains `stream_run`,
discarding the yielded states; side effects and failures are identical. -/
def run (env : Env) (motion_group_id : String)
    (current_motion : Option String) (actions : List Action) (tcp : String) :
    SessionOutput :=
  let out := stream_run env motion_group_id current_motion actions tcp
  { out with yielded := [] }

/-- The Python exceptions relevant to `stop`: `ValueError` (the class the
`except` clause at motion_group.py line 286 catches) and any other error. -/
inductive PyError where
  | valueError (msg : String)
  | otherError (msg : String)
deriving DecidableEq, Repr

/-- Modelled from the spec: `StopExecution(unit, motionHandle) -> success |
"no active motion"` (external execution service, spec section 6; the client
is not under src/). When no motion is active the condition surfaces as a
`ValueError`; the caller's handle is forwarded as-is. -/
def stop_execution (hasActiveMotion : Bool) (_motion : Option String) :
    Except PyError Unit :=
  if hasActiveMotion then .ok () else .error (.valueError "No motion to stop")

/-- `MotionGroup.stop` (motion_group.py lines 279-287): calls
`stop_execution` with the current-motion handle and swallows a `ValueError`
(logging it), so the no-active-motion condition never surfaces. -/
def stop (hasActiveMotion : Bool) (current_motion : Option String) :
    Except PyError Unit :=
  match stop_execution hasActiveMotion current_motion with
  | .ok u => .ok u
  | .error (.valueError _) => .ok ()
  | .error e => .error e

/-- Remote calls that belong to the load, positioning, or streaming steps. -/
def isExecutionCall : NetworkCall → Bool
  | .loadPlannedMotion _ => true
  | .streamMoveToTrajectoryViaJointPtp _ _ _ => true
  | .executeTrajectory => true
  | _ => false

/- Concrete fixtures used to evaluate the pipeline. -/

def cmdHome : MotionCmd := { kind := "joint_ptp", target := [0, 0, 0, 0, 0, 0] }

def cmdTarget : MotionCmd := { kind := "cartesian_ptp", target := [1, 2, 3] }

def w1 : WriteAction := { device := "out1", value := true, path_parameter := 1 / 2 }

def w2 : WriteAction := { device := "out2", value := false, path_parameter := 9 / 10 }

def acts0 : List Action := [.motion cmdHome, .write w1, .motion cmdTarget, .write w2]

def jt0 : JointTrajectory :=
  { times := [0, 1, 2]
    joint_positions := [[0, 0, 0, 0, 0, 0], [1, 1, 1, 1, 1, 1], [2, 2, 2, 2, 2, 2]]
    locations := [0, 1 / 2, 1] }

def stateA : MotionState := { location := 1 / 4 }

def stateB : MotionState := { location := 1 / 2 }

def statePos : MotionState := { location := 0 }

def envOk : Env :=
  { numberOfJoints := 6
    currentJoints := [0, 0, 0, 0, 0, 0]
    optimizerSetup := "setup0"
    planOutcome := .success jt0
    loadedMotion := "motion-1"
    positioningStates := [statePos]
    executeResponses :=
      [.initializeMovementResponse true, .movement stateA, .movement stateB,
       .standstill .reasonMotionEnded] }

def envFail : Env := { envOk with planOutcome := .failure "joint limit violated" }

def envAbnormal : Env :=
  { envOk with
      executeResponses :=
        [.initializeMovementResponse true, .movement stateA, .movement stateB,
         .standstill .reasonUserStop] }

def envNoStandstill : Env :=
  { envOk with
      executeResponses := [.initializeMovementResponse true, .movement stateA] }

/-- C6: on every execute-trajectory stream the controller sends exactly one
Initialize message (trajectory handle, initial location 0) first, awaits
exactly one response, and then sends exactly one StartMovement message; when
that single awaited response never arrives, Initialize stays the only
outbound message — no other ordering of the two outbound messages occurs. -/
theorem c6_one_initialize_then_one_start (trajectory : String)
    (acts : List Action) (stream : List ExecuteTrajectoryResponse) :
    (movement_controller trajectory acts stream).1 =
      ExecuteTrajectoryRequest.initializeMovement trajectory 0 ::
        (if stream.isEmpty then []
         else [ExecuteTrajectoryRequest.startMovement (set_io_list acts) none none]) := by
  cases stream <;> rfl

/-- C7: the SetIO list sent in the StartMovement message has the same length
as the (I/O-effect, path-parameter) pairs extracted from the original
actions, and each entry's location equals the source action's path
parameter unchanged, for every response stream that delivers the one awaited
initialization response, regardless of how many responses follow. -/
theorem c7_start_movement_io_list (trajectory : String) (acts : List Action)
    (stream : List ExecuteTrajectoryResponse) (hne : stream ≠ []) :
    ExecuteTrajectoryRequest.startMovement (set_io_list acts) none none ∈
        (movement_controller trajectory acts stream).1
    ∧ (set_io_list acts).length = (CombinedActions.mk acts).actions.length
    ∧ (set_io_list acts).map SetIoEntry.location
        = (CombinedActions.mk acts).actions.map WriteAction.path_parameter := by
  refine ⟨?_, ?_, ?_⟩
  · cases stream with
    | nil => exact absurd rfl hne
    | cons r rest => simp [movement_controller]
  · simp [set_io_list]
  · simp only [set_io_list, List.map_map]
    rfl

/-- C7 witness: instantiated on the fixture action list and a one-response
stream. -/
theorem c7_start_movement_io_list_witness :
    ExecuteTrajectoryRequest.startMovement (set_io_list acts0) none none ∈
        (movement_controller "motion-1" acts0
          [.initializeMovementResponse true]).1
    ∧ (set_io_list acts0).length = (CombinedActions.mk acts0).actions.length
    ∧ (set_io_list acts0).map SetIoEntry.location
        = (CombinedActions.mk acts0).actions.map WriteAction.path_parameter :=
  c7_start_movement_io_list "motion-1" acts0 [.initializeMovementResponse true]
    (by decide)

/-- C8: plan called with an empty action list fails with the
empty-action-list error and issues no remote call at all: neither the state
read, nor the optimizer-configuration fetch, nor the planning request. -/
theorem c8_empty_actions_no_network (env : Env) (motion_group_id tcp : String) :
    plan env motion_group_id [] tcp = (.error .emptyActionList, []) := rfl

/-- C9: stopping while no motion is active completes without raising, for
any current-motion handle: the no-active-motion ValueError is swallowed
inside stop and never surfaces to the caller. -/
theorem c9_stop_without_active_motion (current_motion : Option String) :
    stop false current_motion = .ok () := rfl

/-- C1: evaluation at the failing input. With two progress updates followed
by a Standstill whose reason is abnormal (user stop), the response loop
consumes the whole stream and the session ends with result ok: the caller
observes only the positioning states and no AbnormalStandstill error is
ever raised, although the abnormal Standstill was received (it sits in the
internal responses list). -/
theorem c1_abnormal_standstill_not_reported :
    (planned_motion_iter envAbnormal "mg0" none acts0 "tcpA").result = .ok ()
    ∧ (movement_controller envAbnormal.loadedMotion acts0
        envAbnormal.executeResponses).2 = .streamExhausted
    ∧ (planned_motion_iter envAbnormal "mg0" none acts0 "tcpA").yielded
        = envAbnormal.positioningStates
    ∧ consumedResponses
        [.movement stateA, .movement stateB, .standstill .reasonUserStop]
        = [.movement stateA, .movement stateB, .standstill .reasonUserStop] :=
  ⟨rfl, rfl, rfl, rfl⟩

/-- C2: evaluation at the failing input. Planning succeeds, yet right after
the planning step the current-motion handle is still empty (the assignment
is commented out in the source), so the handle is never set to a non-empty
value during a successful run. -/
theorem c2_handle_never_set :
    envOk.planOutcome = .success jt0
    ∧ (planned_motion_iter envOk "mg0" none acts0 "tcpA").result = .ok ()
    ∧ (planned_motion_iter envOk "mg0" none acts0 "tcpA").current_motion_after_plan
        = none
    ∧ (planned_motion_iter envOk "mg0" none acts0 "tcpA").current_motion_final
        = none :=
  ⟨rfl, rfl, rfl, rfl⟩

/-- C3 counterexample: a response stream that carries no Standstill at all
(one progress update, then the stream simply ends) still terminates the
streaming phase without error, refuting the claim that a normal Standstill
is the only event after which the session terminates error-free. -/
theorem c3_stream_exhaustion_is_error_free :
    envNoStandstill.executeResponses
      = [.initializeMovementResponse true, .movement stateA]
    ∧ consumeOutcome [.movement stateA] = .streamExhausted
    ∧ (planned_motion_iter envNoStandstill "mg0" none acts0 "tcpA").result
        = .ok () :=
  ⟨rfl, rfl, rfl⟩

/-- C3 amended: a Standstill with reason REASON_MOTION_ENDED is the only
response value whose arrival makes the response loop return early (the loop
completes exactly when such a Standstill is in the stream); every other
response value leaves the loop running, but exhaustion of the response
stream also ends the streaming phase without error, and the loop itself
never fails. -/
theorem c3_motion_ended_only_early_return
    (rest : List ExecuteTrajectoryResponse) :
    (consumeOutcome rest = .completed ↔
      ExecuteTrajectoryResponse.standstill .reasonMotionEnded ∈ rest)
    ∧ (consumeOutcome rest = .streamExhausted ↔
      ExecuteTrajectoryResponse.standstill .reasonMotionEnded ∉ rest)
    ∧ consumeOutcome rest ≠ .initFailed := by
  induction rest with
  | nil => simp [consumeOutcome]
  | cons r rs ih =>
    cases r with
    | initializeMovementResponse ok => simpa [consumeOutcome] using ih
    | movement m => simpa [consumeOutcome] using ih
    | standstill reason =>
      by_cases h : reason = StandstillReason.reasonMotionEnded
      · subst h
        simp [consumeOutcome]
      · have h2 : StandstillReason.reasonMotionEnded ≠ reason := fun he => h he.symm
        simp [consumeOutcome, h, h2, ih.1, ih.2.1, ih.2.2]

/-- C4: evaluation at the failing input. During a successful run the session
builds the LimitsOverride carrying MAX_JOINT_VELOCITY_PREPARE_MOVE for each
of the six joints, yet the point-to-point move request that brings the unit
to location 0 is issued with no limits argument at all — every recorded
move-to-trajectory call carries none. -/
theorem c4_override_built_but_not_sent :
    (planned_motion_iter envOk "mg0" none acts0 "tcpA").limit_override_built
      = some (LimitsOverride.mk (some (List.replicate 6 MAX_JOINT_VELOCITY_PREPARE_MOVE)))
    ∧ (planned_motion_iter envOk "mg0" none acts0 "tcpA").calls[5]?
        = some (.streamMoveToTrajectoryViaJointPtp "motion-1" 0 none)
    ∧ ((planned_motion_iter envOk "mg0" none acts0 "tcpA").calls.all fun c =>
        match c with
        | .streamMoveToTrajectoryViaJointPtp _ _ limits => limits.isNone
        | _ => true) = true :=
  ⟨rfl, rfl, rfl⟩

/-- C5: whenever the planner answers with the failure variant (and the action
list is non-empty, so planning is actually attempted), the pipeline fails
with PlanningFailed carrying the diagnostic, yields no motion state, never
issues a load, positioning, or execute call, and leaves the current-motion
handle empty. -/
theorem c5_planning_failure_stops_pipeline (env : Env)
    (motion_group_id : String) (acts : List Action) (tcp diag : String)
    (hfail : env.planOutcome = .failure diag) (hne : acts ≠ []) :
    (planned_motion_iter env motion_group_id none acts tcp).result
      = .error (.planningFailed diag)
    ∧ (planned_motion_iter env motion_group_id none acts tcp).yielded = []
    ∧ ((planned_motion_iter env motion_group_id none acts tcp).calls.all
        fun c => !isExecutionCall c) = true
    ∧ (planned_motion_iter env motion_group_id none acts tcp).current_motion_final
        = none := by
  have hlen : ¬ acts.length = 0 := by
    simpa [List.length_eq_zero] using hne
  simp [planned_motion_iter, plan, hlen, hfail, isExecutionCall]

/-- C5 witness: instantiated on the failing-planner environment and the
fixture action list. -/
theorem c5_planning_failure_stops_pipeline_witness :
    (planned_motion_iter envFail "mg0" none acts0 "tcpA").result
      = .error (.planningFailed "joint limit violated")
    ∧ (planned_motion_iter envFail "mg0" none acts0 "tcpA").yielded = []
    ∧ ((planned_motion_iter envFail "mg0" none acts0 "tcpA").calls.all
        fun c => !isExecutionCall c) = true
    ∧ (planned_motion_iter envFail "mg0" none acts0 "tcpA").current_motion_final
        = none :=
  c5_planning_failure_stops_pipeline envFail "mg0" acts0 "tcpA"
    "joint limit violated" rfl (by decide)

/-- C10: whatever tcp argument the caller supplies to stream_run, a planned
motion registered by the load call always carries the tool frame "Flange";
the caller's tcp is never forwarded to the load request. -/
theorem c10_load_request_tcp_is_flange (env : Env)
    (motion_group_id : String) (current_motion : Option String)
    (acts : List Action) (tcp : String) (pm : PlannedMotion)
    (h : NetworkCall.loadPlannedMotion pm ∈
      (stream_run env motion_group_id current_motion acts tcp).calls) :
    pm.tcp = "Flange" := by
  by_cases hlen : acts.length = 0
  · simp [stream_run, planned_motion_iter, plan, hlen] at h
  · cases hpo : env.planOutcome with
    | failure diag =>
        simp [stream_run, planned_motion_iter, plan, hlen, hpo] at h
    | success jt =>
        simp [stream_run, planned_motion_iter, plan, hlen, hpo] at h
        subst h
        rfl

/-- C10 witness: instantiated on the successful environment; the load call of
that run registers exactly the planned motion with tool frame "Flange". -/
theorem c10_load_request_tcp_is_flange_witness :
    (mkPlannedMotion "mg0" jt0).tcp = "Flange" :=
  c10_load_request_tcp_is_flange envOk "mg0" none acts0 "tcpA"
    (mkPlannedMotion "mg0" jt0)
    (.tail _ (.tail _ (.tail _ (.tail _ (.head _)))))

end Nova
